import Mathlib

/-!
Shallow embedding of `set_amd_epp_state.py`.

The program is a linear pipeline: privilege check, scaling-driver check, a
power-source probe (`check_charging`), a governor setter (`set_governor`),
and a per-core EPP setter (`set_epp`), driven by a small CLI entry point.

The filesystem surface the program touches is modelled by `SysFS`:
the driver-identity file, the per-core `scaling_governor` and
`energy_performance_preference` files (as maps from core index to optional
content), the power-supply directory entries, and `os.cpu_count()`.
Functions that write return the new `SysFS` together with the list of core
indices written, so "zero writes" claims are statable. Printed output is
accumulated as a list of strings.

Python-semantics notes, each marked at its definition:
  * `s[:-1]` is `String.dropRight s 1`;
  * `sorted(...)` on paths is a lexicographic sort by entry name;
  * `not power_supplies == 0` compares a list with the integer 0, which in
    Python is always `False`, so the guard is the constant `true`
    (`pyListNeqZero`);
  * `int(s)` raises `ValueError` on a non-numeric string (`pyInt` returns
    `none`, propagated as `PyErr.valueError`);
  * `val == "Discharging"` with `val : int` compares an int with a string,
    which in Python is always `False` (`pyIntEqStr`).
-/

/-- The five EPP values, `EPP_STATE_*` constants of the source. -/
def EPP_STATE_DEFAULT : String := "default"

def EPP_STATE_PERFORMANCE : String := "performance"

def EPP_STATE_BALANCE_PERFORMANCE : String := "balance_performance"

def EPP_STATE_BALANCE_POWER : String := "balance_power"

def EPP_STATE_POWER : String := "power"

/-- `EPP_STATE_LIST` from the source. -/
def EPP_STATE_LIST : List String :=
  [EPP_STATE_DEFAULT, EPP_STATE_PERFORMANCE, EPP_STATE_BALANCE_PERFORMANCE,
   EPP_STATE_BALANCE_POWER, EPP_STATE_POWER]

/-- `std_err`: wrap in red ANSI codes (`\033[91m...\033[0m`). -/
def std_err (s : String) : String := "\x1b[91m" ++ s ++ "\x1b[0m"

/-- `std_warn`: wrap in yellow ANSI codes (`\033[93m...\033[0m`). -/
def std_warn (s : String) : String := "\x1b[93m" ++ s ++ "\x1b[0m"

/-- `std_info`: wrap in bold ANSI codes (`\033[1m...\033[0m`). -/
def std_info (s : String) : String := "\x1b[1m" ++ s ++ "\x1b[0m"

/-- One entry of `/sys/class/power_supply/`: its directory name and the
optional contents of its `type`, `online` and `status` files. -/
structure PowerSupplyEntry where
  name : String
  typeFile : Option String
  onlineFile : Option String
  statusFile : Option String
deriving DecidableEq

/-- Which per-supply file a read touched (for the read trace). -/
inductive SupplyField where
  | ftype
  | fonline
  | fstatus
deriving DecidableEq

/-- A read event of the probe: entry name and which of its files was read. -/
abbrev ReadEv := String × SupplyField

/-- The only uncaught Python exception our embedding can surface:
`ValueError` from `int(...)` on a non-numeric string. -/
inductive PyErr where
  | valueError
deriving DecidableEq

/-- Decimal-digit test for a character list. -/
def allDigits : List Char → Bool
  | [] => true
  | c :: cs => c.isDigit && allDigits cs

/-- Value of a list of decimal digits, most significant first. -/
def digitsVal (acc : Nat) : List Char → Nat
  | [] => acc
  | c :: cs => digitsVal (acc * 10 + (c.toNat - 48)) cs

/-- Python `int(s)` for the file contents this program reads: an optional
sign followed by at least one decimal digit parses; anything else
(e.g. "Discharging") raises `ValueError`, modelled as `none`. -/
def pyInt (s : String) : Option Int :=
  match s.toList with
  | [] => none
  | '-' :: cs =>
    if (!cs.isEmpty) && allDigits cs then some (-(digitsVal 0 cs : Int)) else none
  | '+' :: cs =>
    if (!cs.isEmpty) && allDigits cs then some ((digitsVal 0 cs : Int)) else none
  | cs => if allDigits cs then some ((digitsVal 0 cs : Int)) else none

/-- Python `s[:-1]`: drop the final character (empty string stays empty). -/
def pyChop (s : String) : String := s.dropRight 1

/-- Python `not power_supplies == 0` where `power_supplies` is a list:
a list never equals the integer 0, so the whole guard is always `true`. -/
def pyListNeqZero (_ : List PowerSupplyEntry) : Bool := true

/-- Python `val == "Discharging"` where `val : int`: an int never equals a
string, so the comparison is always `False`. -/
def pyIntEqStr (_ : Int) (_ : String) : Bool := false

/-- Insert an entry into a list sorted lexicographically by name. -/
def insertByName (e : PowerSupplyEntry) :
    List PowerSupplyEntry → List PowerSupplyEntry
  | [] => [e]
  | x :: xs => if e.name ≤ x.name then e :: x :: xs else x :: insertByName e xs

/-- `sorted(power_supplies)`: lexicographic sort of the directory entries
(paths compare by their name strings). -/
def sortByName : List PowerSupplyEntry → List PowerSupplyEntry
  | [] => []
  | x :: xs => insertByName x (sortByName xs)

/-- The `for supply in power_supplies:` loop body of `check_charging`,
threaded with the trace of reads performed so far (in reverse order).
Returns the decision and the full read trace.

Per entry: skip if `type` is missing; read `type`, chop the last char.
If "Mains": skip if `online` missing, else `val = int(read(online)[:-1])`
and return `True` when `val == 1`. If "Battery": skip if `status` missing,
else `val = int(read(status)[:-1])` — which raises `ValueError` on
"Discharging" — and compare `val == "Discharging"` (int vs str, always
false). Fall through to the next entry otherwise; after the loop, `True`. -/
def chargingLoop : List PowerSupplyEntry → List ReadEv →
    Except PyErr (Bool × List ReadEv)
  | [], trace => .ok (true, trace.reverse)
  | e :: rest, trace =>
    match e.typeFile with
    | none => chargingLoop rest trace
    | some tContent =>
      let trace1 := (e.name, SupplyField.ftype) :: trace
      if pyChop tContent = "Mains" then
        match e.onlineFile with
        | none => chargingLoop rest trace1
        | some oContent =>
          let trace2 := (e.name, SupplyField.fonline) :: trace1
          match pyInt (pyChop oContent) with
          | none => .error .valueError
          | some val =>
            if val = 1 then .ok (true, trace2.reverse)
            else chargingLoop rest trace2
      else if pyChop tContent = "Battery" then
        match e.statusFile with
        | none => chargingLoop rest trace1
        | some sContent =>
          let trace2 := (e.name, SupplyField.fstatus) :: trace1
          match pyInt (pyChop sContent) with
          | none => .error .valueError
          | some val =>
            if pyIntEqStr val "Discharging" then .ok (false, trace2.reverse)
            else chargingLoop rest trace2
      else chargingLoop rest trace1

/-- `check_charging`: list the power-supply entries, sort them, then
`if not power_supplies == 0: return True` — the comparison of a list with
the integer 0, always false in Python, so the guard always fires — and
only otherwise run the scan loop. Result: the boolean and the trace of
per-entry file reads performed. -/
def check_charging (entries : List PowerSupplyEntry) :
    Except PyErr (Bool × List ReadEv) :=
  let sortedEntries := sortByName entries
  if pyListNeqZero sortedEntries then .ok (true, [])
  else chargingLoop sortedEntries []

/-- The filesystem state the program reads and writes. -/
structure SysFS where
  /-- content of `/sys/devices/system/cpu/cpu0/cpufreq/scaling_driver` -/
  driverFile : Option String
  /-- content of `cpu<n>/cpufreq/scaling_governor` per core index -/
  govFile : Nat → Option String
  /-- content of `cpu<n>/cpufreq/energy_performance_preference` per core -/
  eppFile : Nat → Option String
  /-- directory entries of `/sys/class/power_supply/` -/
  powerSupplies : List PowerSupplyEntry
  /-- `os.cpu_count()` -/
  cpuCount : Nat

/-- `check_root`: passes exactly when the effective uid is 0. -/
def check_root (euid : Nat) : Bool := euid = 0

/-- Message printed by `check_root` on failure (print appends a newline). -/
def ROOT_MSG : String := "amd_epp_power_save must be run with root privileges.\n"

/-- `check_driver`: read the scaling-driver file (missing file gives
`None`), chop its last character, and compare with "amd-pstate-epp".
Returns whether the check passes. -/
def check_driver (fs : SysFS) : Bool :=
  match fs.driverFile with
  | none => false
  | some content => pyChop content = "amd-pstate-epp"

/-- Message printed by `check_driver` on failure. -/
def DRIVER_MSG : String := "The system is not running amd-pstate-epp driver.\n"

/-- The write loop of `set_governor`: for each core index, skip if its
governor file is absent, else overwrite it with "powersave\n". Returns the
final state and the indices written, in order. -/
def govLoop : List Nat → SysFS → SysFS × List Nat
  | [], fs => (fs, [])
  | c :: rest, fs =>
    match fs.govFile c with
    | none => govLoop rest fs
    | some _ =>
      let fs1 := { fs with govFile := Function.update fs.govFile c (some "powersave\n") }
      let r := govLoop rest fs1
      (r.1, c :: r.2)

/-- Result of `set_governor`: final state, printed output, cores written. -/
structure GovResult where
  fs : SysFS
  output : List String
  writes : List Nat

/-- `set_governor`: if core 0's governor file is absent, print an info
note and do nothing. Else read it, chop the last character; if the value
is already "powersave", do nothing silently. Otherwise print a warning and
write "powersave\n" to every existing governor file of cores
`0 .. cpu_count - 1`. -/
def set_governor (fs : SysFS) : GovResult :=
  match fs.govFile 0 with
  | none =>
    ⟨fs, [std_info "Could not find /sys/devices/system/cpu/cpu0/cpufreq/scaling_governor file. Skipping governor setting."], []⟩
  | some content =>
    if pyChop content = "powersave" then ⟨fs, [], []⟩
    else
      let r := govLoop (List.range fs.cpuCount) fs
      ⟨r.1, [std_warn "Setting cpufreq governor to \"powersave\""], r.2⟩

/-- The write loop of `set_epp`: for each core index, skip if its EPP file
is absent, else print an info line naming the core and overwrite the file
with the value followed by a newline. Returns the final state, the output
lines, and the indices written, in order. -/
def eppLoop (v : String) : List Nat → SysFS → SysFS × List String × List Nat
  | [], fs => (fs, [], [])
  | c :: rest, fs =>
    match fs.eppFile c with
    | none => eppLoop v rest fs
    | some _ =>
      let msg := std_info ("Setting epp_state to " ++ v ++ " for cpu" ++ toString c ++ "\n")
      let fs1 := { fs with eppFile := Function.update fs.eppFile c (some (v ++ "\n")) }
      let r := eppLoop v rest fs1
      (r.1, msg :: r.2.1, c :: r.2.2)

/-- Result of `set_epp`: final state, printed output, governor-file writes
and EPP-file writes (core indices, in order). -/
structure EppResult where
  fs : SysFS
  output : List String
  govWrites : List Nat
  eppWrites : List Nat

/-- Advisory printed when a performance state is requested off AC power. -/
def BATTERY_WARN_MSG : String :=
  std_warn "It seems system is not running on AC power right now, setting performance epp state might not be optimal."

/-- `set_epp`: call `check_charging` (propagating any exception); when it
reports not-charging and the requested value is `performance` or
`balance_performance`, print an advisory warning. Then call
`set_governor`, then write `v ++ "\n"` to every existing EPP file of
cores `0 .. cpu_count - 1`, printing an info line per written core. -/
def set_epp (v : String) (fs : SysFS) : Except PyErr EppResult :=
  match check_charging fs.powerSupplies with
  | .error e => .error e
  | .ok (charging, _) =>
    let warnOut :=
      if !charging && [EPP_STATE_PERFORMANCE, EPP_STATE_BALANCE_PERFORMANCE].contains v
      then [BATTERY_WARN_MSG] else []
    let g := set_governor fs
    let r := eppLoop v (List.range g.fs.cpuCount) g.fs
    .ok ⟨r.1, warnOut ++ g.output ++ r.2.1, g.writes, r.2.2⟩

/-- Message printed when no `epp_state` argument is supplied. -/
def MISSING_ARG_MSG : String :=
  std_err "No epp_state value provided. Provide one of the options from this list: "
    ++ std_info (String.intercalate ", " EPP_STATE_LIST)

/-- Result of a full program run: exit code, final filesystem, printed
output, governor writes and EPP writes. -/
structure RunResult where
  exitCode : Int
  fs : SysFS
  output : List String
  govWrites : List Nat
  eppWrites : List Nat

/-- The `__main__` block: `check_root()` (exit 1 on failure), then
`check_driver()` (exit 1 on failure), then argument handling — the parser
only admits values from `EPP_STATE_LIST`, so the argument is modelled as
`Option String`; `none` prints the choices message and exits -1 — and
finally `set_epp` with implicit exit 0. -/
def mainRun (euid : Nat) (arg : Option String) (fs : SysFS) :
    Except PyErr RunResult :=
  if check_root euid then
    if check_driver fs then
      match arg with
      | none => .ok ⟨-1, fs, [MISSING_ARG_MSG], [], []⟩
      | some v =>
        match set_epp v fs with
        | .error e => .error e
        | .ok r => .ok ⟨0, r.fs, r.output, r.govWrites, r.eppWrites⟩
    else .ok ⟨1, fs, [DRIVER_MSG], [], []⟩
  else .ok ⟨1, fs, [ROOT_MSG], [], []⟩

/-! Concrete fixtures used by witnesses and counterexamples. -/

/-- A Mains (AC adapter) power-supply entry reporting online. -/
def acMains : PowerSupplyEntry :=
  { name := "AC", typeFile := some "Mains\n", onlineFile := some "1\n", statusFile := none }

/-- A battery power-supply entry reporting "Discharging". -/
def bat0 : PowerSupplyEntry :=
  { name := "BAT0", typeFile := some "Battery\n", onlineFile := none,
    statusFile := some "Discharging\n" }

/-- A two-core system: correct driver, governor already "powersave" on
core 0, both cores exposing an EPP file. -/
def fsA : SysFS :=
  { driverFile := some "amd-pstate-epp\n"
    govFile := fun n => if n = 0 then some "powersave\n" else none
    eppFile := fun n => if n < 2 then some "default\n" else none
    powerSupplies := []
    cpuCount := 2 }

/-- A sparse topology: two cores but only core 0 has an EPP file. -/
def fsMixed : SysFS :=
  { driverFile := some "amd-pstate-epp\n"
    govFile := fun _ => none
    eppFile := fun n => if n = 0 then some "default\n" else none
    powerSupplies := []
    cpuCount := 2 }

/-- Like `fsA` but with the driver-identity file absent. -/
def fsNoDriver : SysFS := { fsA with driverFile := none }

/-- Like `fsA` but the driver file holds exactly "amd-pstate-epp" with no
trailing newline. -/
def fsDriverNoNewline : SysFS := { fsA with driverFile := some "amd-pstate-epp" }

/-- One core whose driver file holds "amd-pstate-eppX": a content other
than the driver identifier, which `check_driver` nevertheless accepts
after chopping the final character. -/
def c4CexFS : SysFS :=
  { driverFile := some "amd-pstate-eppX"
    govFile := fun _ => none
    eppFile := fun n => if n = 0 then some "default\n" else none
    powerSupplies := []
    cpuCount := 1 }

/-! Helper lemmas. -/

/-- The probe always answers `true` with an empty read trace: the guard
`not power_supplies == 0` compares a list with an integer and is thus
always true in Python. Shared helper (restated as the C2 theorem below). -/
lemma check_charging_ok (es : List PowerSupplyEntry) :
    check_charging es = .ok (true, []) := rfl

/-- The governor write loop never touches EPP files. -/
lemma govLoop_eppFile (cpus : List Nat) :
    ∀ fs : SysFS, (govLoop cpus fs).1.eppFile = fs.eppFile := by
  induction cpus with
  | nil => intro fs; rfl
  | cons c rest ih =>
    intro fs
    cases h : fs.govFile c with
    | none => simp [govLoop, h, ih]
    | some s => simp [govLoop, h]; exact ih _

/-- The governor write loop does not change the core count. -/
lemma govLoop_cpuCount (cpus : List Nat) :
    ∀ fs : SysFS, (govLoop cpus fs).1.cpuCount = fs.cpuCount := by
  induction cpus with
  | nil => intro fs; rfl
  | cons c rest ih =>
    intro fs
    cases h : fs.govFile c with
    | none => simp [govLoop, h, ih]
    | some s => simp [govLoop, h]; exact ih _

/-- `set_governor` never touches EPP files. -/
lemma set_governor_eppFile (fs : SysFS) :
    (set_governor fs).fs.eppFile = fs.eppFile := by
  unfold set_governor
  cases h : fs.govFile 0 with
  | none => rfl
  | some s =>
    by_cases hp : pyChop s = "powersave" <;> simp [hp, govLoop_eppFile]

/-- `set_governor` does not change the core count. -/
lemma set_governor_cpuCount (fs : SysFS) :
    (set_governor fs).fs.cpuCount = fs.cpuCount := by
  unfold set_governor
  cases h : fs.govFile 0 with
  | none => rfl
  | some s =>
    by_cases hp : pyChop s = "powersave" <;> simp [hp, govLoop_cpuCount]

/-- `set_epp` never raises: the probe always answers "charging", so no
advisory is printed and the result is the governor pass followed by the
EPP write loop. -/
lemma set_epp_ok (v : String) (fs : SysFS) :
    set_epp v fs =
      .ok ⟨(eppLoop v (List.range (set_governor fs).fs.cpuCount) (set_governor fs).fs).1,
           (set_governor fs).output
             ++ (eppLoop v (List.range (set_governor fs).fs.cpuCount) (set_governor fs).fs).2.1,
           (set_governor fs).writes,
           (eppLoop v (List.range (set_governor fs).fs.cpuCount) (set_governor fs).fs).2.2⟩ :=
  rfl

/-- Cores outside the loop's index list keep their EPP file unchanged. -/
lemma eppLoop_eppFile_not_mem (v : String) (cpus : List Nat) :
    ∀ (fs : SysFS) (c : Nat), c ∉ cpus →
      (eppLoop v cpus fs).1.eppFile c = fs.eppFile c := by
  induction cpus with
  | nil => intro fs c _; rfl
  | cons c0 rest ih =>
    intro fs c hc
    have hne : c ≠ c0 := fun h => hc (h ▸ List.mem_cons_self c0 rest)
    have hrest : c ∉ rest := fun h => hc (List.mem_cons_of_mem c0 h)
    cases h : fs.eppFile c0 with
    | none => simp [eppLoop, h]; exact ih _ _ hrest
    | some s =>
      simp [eppLoop, h]
      rw [ih _ _ hrest]
      simp [Function.update_noteq hne]

/-- A core in the loop's index list (each index occurring once) ends with
`v ++ "\n"` when its EPP file exists, and keeps its absent file absent. -/
lemma eppLoop_eppFile_mem (v : String) (cpus : List Nat) :
    ∀ (fs : SysFS) (c : Nat), c ∈ cpus → cpus.Nodup →
      (eppLoop v cpus fs).1.eppFile c =
        if (fs.eppFile c).isSome then some (v ++ "\n") else fs.eppFile c := by
  induction cpus with
  | nil => intro fs c hc _; cases hc
  | cons c0 rest ih =>
    intro fs c hc hnd
    have hnd0 : c0 ∉ rest := (List.nodup_cons.mp hnd).1
    have hndr : rest.Nodup := (List.nodup_cons.mp hnd).2
    by_cases hcc : c = c0
    · subst hcc
      cases h : fs.eppFile c with
      | none =>
        simp [eppLoop, h]
        rw [eppLoop_eppFile_not_mem v rest _ _ hnd0]
        simp [h]
      | some s =>
        simp [eppLoop, h]
        rw [eppLoop_eppFile_not_mem v rest _ _ hnd0]
        simp [Function.update_same]
    · have hcr : c ∈ rest := by
        rcases List.mem_cons.mp hc with h | h
        · exact absurd h hcc
        · exact h
      cases h : fs.eppFile c0 with
      | none => simp [eppLoop, h]; exact ih _ _ hcr hndr
      | some s =>
        simp [eppLoop, h]
        rw [ih _ _ hcr hndr]
        simp [Function.update_noteq hcc]

/-! Claim theorems. -/

/-- C2: for every filesystem state — any set of power-supply entries with
any contents — `check_charging` returns true, with an empty read trace,
i.e. before reading any entry's type, online, or status file: the guard
`not power_supplies == 0` compares the entry list with the integer 0 and
is therefore always true. -/
theorem check_charging_always_true_no_reads
    (entries : List PowerSupplyEntry) :
    check_charging entries = .ok (true, []) := rfl

/-- C1 (code bug): on the power-supply state holding only a Battery entry
whose status reads "Discharging" the probe returns true, not false as
specified: the always-true guard short-circuits the scan. Moreover, even
the (unreachable) scan loop could never return false on this state: it
computes `int("Discharging")`, which raises `ValueError`. -/
theorem battery_only_discharging_probe_divergence :
    check_charging [bat0] = .ok (true, [])
      ∧ chargingLoop (sortByName [bat0]) [] = .error .valueError := by
  exact ⟨rfl, rfl⟩

/-- C9: with one Mains entry (online = 1) and one Battery entry
(status = "Discharging"), the Mains name sorting lexicographically first,
the probe returns true. (It does so via the always-true guard, before any
per-entry read.) -/
theorem mains_before_battery_returns_true (m b : PowerSupplyEntry)
    (h1 : m.typeFile = some "Mains\n") (h2 : m.onlineFile = some "1\n")
    (h3 : b.typeFile = some "Battery\n")
    (h4 : b.statusFile = some "Discharging\n")
    (h5 : m.name < b.name) :
    check_charging [m, b] = .ok (true, []) := rfl

/-- Witness for C9 at the concrete entries `acMains` and `bat0`. -/
theorem mains_before_battery_returns_true_witness :
    check_charging [acMains, bat0] = .ok (true, []) :=
  mains_before_battery_returns_true acMains bat0 rfl rfl rfl rfl
    (by rw [String.lt_iff_toList_lt]; decide)

/-- C3: for any value `v` of the EPP enumeration, running `set_epp v` on a
state where every core `0 .. cpu_count - 1` has an EPP file succeeds and
leaves every such file containing exactly `v ++ "\n"`. -/
theorem set_epp_writes_all_cores (v : String) (fs : SysFS)
    (hv : v ∈ EPP_STATE_LIST)
    (hall : ∀ c, c < fs.cpuCount → (fs.eppFile c).isSome = true) :
    ∃ r, set_epp v fs = .ok r ∧
      ∀ c, c < fs.cpuCount → r.fs.eppFile c = some (v ++ "\n") := by
  refine ⟨_, set_epp_ok v fs, ?_⟩
  intro c hc
  dsimp only
  rw [set_governor_cpuCount]
  rw [eppLoop_eppFile_mem v _ _ c (List.mem_range.mpr hc) (List.nodup_range _)]
  rw [set_governor_eppFile]
  simp [hall c hc]

/-- Witness for C3: `set_epp "power"` on the two-core state `fsA`. -/
theorem set_epp_writes_all_cores_witness :
    ∃ r, set_epp "power" fsA = .ok r ∧
      ∀ c, c < fsA.cpuCount → r.fs.eppFile c = some ("power" ++ "\n") :=
  set_epp_writes_all_cores "power" fsA (by decide) (by decide)

/-- C7: on any sparse topology, `set_epp` succeeds (no error raised): a
core with an EPP file receives `v ++ "\n"`, a core without one is skipped
and its file stays absent — and this holds for every mixture, so absent
cores do not affect the outcome for present cores. -/
theorem set_epp_mixed_topology (v : String) (fs : SysFS) :
    ∃ r, set_epp v fs = .ok r ∧
      ∀ c, c < fs.cpuCount →
        ((fs.eppFile c).isSome = true → r.fs.eppFile c = some (v ++ "\n"))
        ∧ (fs.eppFile c = none → r.fs.eppFile c = none) := by
  refine ⟨_, set_epp_ok v fs, ?_⟩
  intro c hc
  dsimp only
  rw [set_governor_cpuCount]
  rw [eppLoop_eppFile_mem v _ _ c (List.mem_range.mpr hc) (List.nodup_range _)]
  rw [set_governor_eppFile]
  constructor
  · intro hs; simp [hs]
  · intro hn; simp [hn]

/-- Witness for C7 at `fsMixed` (core 0 has an EPP file, core 1 does
not). -/
theorem set_epp_mixed_topology_witness :
    ∃ r, set_epp "default" fsMixed = .ok r ∧
      ∀ c, c < fsMixed.cpuCount →
        ((fsMixed.eppFile c).isSome = true →
            r.fs.eppFile c = some ("default" ++ "\n"))
        ∧ (fsMixed.eppFile c = none → r.fs.eppFile c = none) :=
  set_epp_mixed_topology "default" fsMixed

/-- C6: when core 0's governor file exists and already reads "powersave",
`set_governor` performs zero writes, prints nothing and leaves the state
unchanged; running it again still performs zero writes. -/
theorem set_governor_idempotent (fs : SysFS) (content : String)
    (h : fs.govFile 0 = some content) (hp : pyChop content = "powersave") :
    set_governor fs = ⟨fs, [], []⟩
      ∧ (set_governor (set_governor fs).fs).writes = [] := by
  have h1 : set_governor fs = ⟨fs, [], []⟩ := by
    unfold set_governor
    rw [h]
    simp [hp]
  refine ⟨h1, ?_⟩
  rw [h1]
  dsimp only
  rw [h1]

/-- Witness for C6 on `fsA`, whose core-0 governor file reads
"powersave\n". -/
theorem set_governor_idempotent_witness :
    set_governor fsA = ⟨fsA, [], []⟩
      ∧ (set_governor (set_governor fsA).fs).writes = [] :=
  set_governor_idempotent fsA "powersave\n" rfl (by decide)

/-- C5: a run with a non-zero effective uid prints the privilege message
and exits with code 1, leaving the state unchanged with zero writes; the
result is the same for every filesystem state and argument, so the driver
check was not consulted. -/
theorem nonroot_exits_before_driver_check (euid : Nat) (arg : Option String)
    (fs : SysFS) (h : euid ≠ 0) :
    mainRun euid arg fs = .ok ⟨1, fs, [ROOT_MSG], [], []⟩ := by
  unfold mainRun
  simp [check_root, h]

/-- Witness for C5 at uid 1000 on `fsA`. -/
theorem nonroot_exits_before_driver_check_witness :
    mainRun 1000 none fsA = .ok ⟨1, fsA, [ROOT_MSG], [], []⟩ :=
  nonroot_exits_before_driver_check 1000 none fsA (by decide)

/-- C4 (counterexample): a driver file holding "amd-pstate-eppX" — a
content other than the expected identifier "amd-pstate-epp" — does not
make the program exit with code 1: the final character is chopped before
the comparison, the check passes, the run exits 0 and writes core 0's EPP
file. -/
theorem driver_gate_cex :
    (mainRun 0 (some "power") c4CexFS).toOption.map
        (fun r => (r.exitCode, r.eppWrites, r.fs.eppFile 0))
      = some ((0 : Int), [0], some "power\n") := rfl

/-- C4 (amended): if the driver file is absent, or present with a content
whose final-character-chopped form differs from "amd-pstate-epp", the run
exits with code 1, prints the driver message, and performs zero writes,
leaving the filesystem unchanged. -/
theorem driver_gate_exit1_no_writes (arg : Option String) (fs : SysFS)
    (h : fs.driverFile = none
        ∨ ∃ c, fs.driverFile = some c ∧ pyChop c ≠ "amd-pstate-epp") :
    mainRun 0 arg fs = .ok ⟨1, fs, [DRIVER_MSG], [], []⟩ := by
  have hd : check_driver fs = false := by
    unfold check_driver
    rcases h with h | ⟨c, hc, hne⟩
    · rw [h]
    · rw [hc]; simp [hne]
  unfold mainRun
  simp [check_root, hd]

/-- Witness for the amended C4 at `fsNoDriver` (driver file absent). -/
theorem driver_gate_exit1_no_writes_witness :
    mainRun 0 (some "power") fsNoDriver
      = .ok ⟨1, fsNoDriver, [DRIVER_MSG], [], []⟩ :=
  driver_gate_exit1_no_writes (some "power") fsNoDriver (.inl rfl)

/-- C10: `check_driver` passes exactly when the driver file is present and
its content minus its final character equals "amd-pstate-epp"; in
particular a file holding exactly "amd-pstate-epp" with no trailing
newline is rejected: the run exits with code 1 without any write. -/
theorem check_driver_chops_final_char (fs : SysFS) :
    (check_driver fs = true
        ↔ ∃ c, fs.driverFile = some c ∧ pyChop c = "amd-pstate-epp")
      ∧ (fs.driverFile = some "amd-pstate-epp" →
          ∀ arg, mainRun 0 arg fs = .ok ⟨1, fs, [DRIVER_MSG], [], []⟩) := by
  constructor
  · unfold check_driver
    cases h : fs.driverFile with
    | none => simp
    | some c => simp
  · intro hd arg
    have hfail : check_driver fs = false := by
      unfold check_driver
      rw [hd]
      decide
    unfold mainRun
    simp [check_root, hfail]

/-- Witness for C10 at `fsDriverNoNewline`, whose driver file holds
exactly "amd-pstate-epp". -/
theorem check_driver_chops_final_char_witness :
    (check_driver fsDriverNoNewline = true
        ↔ ∃ c, fsDriverNoNewline.driverFile = some c
            ∧ pyChop c = "amd-pstate-epp")
      ∧ (fsDriverNoNewline.driverFile = some "amd-pstate-epp" →
          ∀ arg, mainRun 0 arg fsDriverNoNewline
            = .ok ⟨1, fsDriverNoNewline, [DRIVER_MSG], [], []⟩) :=
  check_driver_chops_final_char fsDriverNoNewline

/-- C8: with the privilege and driver checks passing and no argument
supplied, the run prints the message listing all five valid EPP values and
exits with code -1 (non-zero), with zero writes and the filesystem
unchanged — the EPP setter is never reached. -/
theorem missing_arg_lists_choices (fs : SysFS)
    (hd : check_driver fs = true) :
    mainRun 0 none fs = .ok ⟨-1, fs, [MISSING_ARG_MSG], [], []⟩
      ∧ (-1 : Int) ≠ 0
      ∧ MISSING_ARG_MSG
          = std_err "No epp_state value provided. Provide one of the options from this list: "
              ++ std_info (String.intercalate ", " EPP_STATE_LIST)
      ∧ EPP_STATE_LIST
          = ["default", "performance", "balance_performance",
             "balance_power", "power"] := by
  refine ⟨?_, by decide, rfl, rfl⟩
  unfold mainRun
  simp [check_root, hd]

/-- Witness for C8 on `fsA`, whose driver file is in order. -/
theorem missing_arg_lists_choices_witness :
    mainRun 0 none fsA = .ok ⟨-1, fsA, [MISSING_ARG_MSG], [], []⟩
      ∧ (-1 : Int) ≠ 0
      ∧ MISSING_ARG_MSG
          = std_err "No epp_state value provided. Provide one of the options from this list: "
              ++ std_info (String.intercalate ", " EPP_STATE_LIST)
      ∧ EPP_STATE_LIST
          = ["default", "performance", "balance_performance",
             "balance_power", "power"] :=
  missing_arg_lists_choices fsA (by decide)
